import Mathlib

/-
Shallow embedding of src/pysnow/query_builder.py (class QueryBuilder) and a
verification of the frozen claims about it.

The builder state holds the mutable attributes of a QueryBuilder instance.
Operations are modelled as functions from a state to a pair of an optional
raised exception and the post-call state; Python raises all of its
exceptions in this module before any attribute assignment, so every error
branch returns the input state unchanged, exactly as the line order of the
source shows.

Operand values are modelled by the Python types the module distinguishes:
str, int, datetime-like objects (anything with strftime) and lists of
scalars.  Python bool and float add nothing the claims touch and are left
out of the value universe.
-/

namespace Pysnow

/-- Date-time value as consumed through datetime.strftime. -/
structure DateTime where
  year : Nat
  month : Nat
  day : Nat
  hour : Nat
  minute : Nat
  second : Nat
deriving DecidableEq, Repr

def pad2 (n : Nat) : String :=
  if n < 10 then "0" ++ toString n else toString n

def pad4 (n : Nat) : String :=
  if n < 10 then "000" ++ toString n
  else if n < 100 then "00" ++ toString n
  else if n < 1000 then "0" ++ toString n
  else toString n

/-- strftime with the format string used throughout the module. -/
def DateTime.strftime (d : DateTime) : String :=
  pad4 d.year ++ "-" ++ pad2 d.month ++ "-" ++ pad2 d.day ++ " " ++
    pad2 d.hour ++ ":" ++ pad2 d.minute ++ ":" ++ pad2 d.second

/-- Scalar operand values. -/
inductive SVal where
  | s (v : String)
  | i (n : Int)
  | dt (d : DateTime)
deriving DecidableEq, Repr

/-- Operand values: scalars or Python lists of scalars. -/
inductive Value where
  | sc (v : SVal)
  | ls (l : List SVal)
deriving DecidableEq, Repr

def SVal.isStr : SVal → Bool
  | .s _ => true
  | _ => false

def Value.isInt : Value → Bool
  | .sc (.i _) => true
  | _ => false

def Value.isDt : Value → Bool
  | .sc (.dt _) => true
  | _ => false

/-- Single-quote character, kept out of string literals. -/
def sq : String := String.singleton (Char.ofNat 39)

/-- Python str() of a scalar; str of a datetime with zero microseconds
prints in the same %Y-%m-%d %H:%M:%S shape strftime produces here. -/
def SVal.pyStr : SVal → String
  | .s v => v
  | .i n => toString n
  | .dt d => d.strftime

/-- Python repr() of a scalar, used only inside str() of a list; operands
that would be rendered this way never pass the type screen below. -/
def SVal.pyRepr : SVal → String
  | .s v => sq ++ v ++ sq
  | .i n => toString n
  | .dt d =>
      "datetime.datetime(" ++ toString d.year ++ ", " ++ toString d.month ++
        ", " ++ toString d.day ++ ", " ++ toString d.hour ++ ", " ++
        toString d.minute ++
        (if d.second == 0 then "" else ", " ++ toString d.second) ++ ")"

/-- Python str() of a value, as used by percent-s formatting. -/
def Value.pyStr : Value → String
  | .sc v => v.pyStr
  | .ls l => "[" ++ String.intercalate (", ") (l.map SVal.pyRepr) ++ "]"

/-- The runtime types the module discriminates on. -/
inductive PyType where
  | tStr
  | tInt
  | tDatetime
  | tList
deriving DecidableEq, Repr

def Value.pyType : Value → PyType
  | .sc (.s _) => .tStr
  | .sc (.i _) => .tInt
  | .sc (.dt _) => .tDatetime
  | .ls _ => .tList

/-- Percent-s rendering of type(x). -/
def PyType.pyName : PyType → String
  | .tStr => "<class " ++ sq ++ "str" ++ sq ++ ">"
  | .tInt => "<class " ++ sq ++ "int" ++ sq ++ ">"
  | .tDatetime => "<class " ++ sq ++ "datetime.datetime" ++ sq ++ ">"
  | .tList => "<class " ++ sq ++ "list" ++ sq ++ ">"

def Value.pyTypeName (v : Value) : String := v.pyType.pyName

/-- Percent-s rendering of a list of types, as in the types argument of
the shared condition validator. -/
def typesRepr (ts : List PyType) : String :=
  "[" ++ String.intercalate (", ") (ts.map PyType.pyName) ++ "]"

/-- The exceptions the module can raise.  The first five come from
pysnow.exceptions; builtinTypeError is the Python built-in TypeError that
str.join raises on a non-str element. -/
inductive QErr where
  | queryEmpty (msg : String)
  | queryExpressionError (msg : String)
  | queryMissingField (msg : String)
  | queryMultipleExpressions (msg : String)
  | queryTypeError (msg : String)
  | builtinTypeError (msg : String)
deriving DecidableEq, Repr

/-- The mutable attributes of a QueryBuilder instance. -/
structure State where
  query : List String
  current_field : Option String
  c_oper : Option String
  l_oper : Option String
deriving DecidableEq, Repr

/-- QueryBuilder.__init__. -/
def initState : State :=
  { query := [], current_field := none, c_oper := none, l_oper := none }

/-- Result of a mutating call: the exception raised, if any, and the state
of the builder afterwards (unchanged when an exception is raised). -/
abbrev Res := Option QErr × State

/-- Python truthiness of an optional string attribute: None and the empty
string are falsy. -/
def truthy : Option String → Bool
  | none => false
  | some v => !(v == "")

/-- Python str() of an optional string, as used by percent-s and format. -/
def optStr : Option String → String
  | none => "None"
  | some v => v

/-- QueryBuilder.field. -/
def field (s : State) (f : String) : State :=
  { s with current_field := some f }

/-- QueryBuilder._add_condition; the caller argument stands for the
frame-inspected name of the invoking method. -/
def addCondition (s : State) (caller : String) (operator : String)
    (operand : Value) (types : List PyType) : Res :=
  if !(truthy s.current_field) then
    (some (QErr.queryMissingField ("Conditions requires a field()")), s)
  else if !(types.contains operand.pyType) then
    (some (QErr.queryTypeError ("Invalid type passed to " ++ caller ++
      "() , expected: " ++ typesRepr types)), s)
  else if truthy s.c_oper then
    (some (QErr.queryMultipleExpressions
      ("Expected logical operator after expression")), s)
  else
    (none,
      { s with
          c_oper := some caller,
          query := s.query ++
            [optStr s.current_field ++ operator ++ operand.pyStr] })

/-- QueryBuilder.order_descending: note the operator string interpolates
the current field while _add_condition prefixes the field again. -/
def order_descending (s : State) : Res :=
  addCondition s ("order_descending")
    ("ORDERBYDESC" ++ optStr s.current_field) (Value.sc (SVal.s (""))) [.tStr]

/-- QueryBuilder.order_ascending. -/
def order_ascending (s : State) : Res :=
  addCondition s ("order_ascending")
    ("ORDERBY" ++ optStr s.current_field) (Value.sc (SVal.s (""))) [.tStr]

/-- QueryBuilder.starts_with. -/
def starts_with (s : State) (v : Value) : Res :=
  addCondition s ("starts_with") ("STARTSWITH") v [.tStr]

/-- QueryBuilder.ends_with. -/
def ends_with (s : State) (v : Value) : Res :=
  addCondition s ("ends_with") ("ENDSWITH") v [.tStr]

/-- QueryBuilder.contains. -/
def contains (s : State) (v : Value) : Res :=
  addCondition s ("contains") ("LIKE") v [.tStr]

/-- QueryBuilder.not_contains. -/
def not_contains (s : State) (v : Value) : Res :=
  addCondition s ("not_contains") ("NOTLIKE") v [.tStr]

/-- QueryBuilder.is_empty. -/
def is_empty (s : State) : Res :=
  addCondition s ("is_empty") ("ISEMPTY") (Value.sc (SVal.s (""))) [.tStr, .tInt]

/-- QueryBuilder.equals: str operand via `=`, list operand via `IN` with
every element passed through str() before joining. -/
def equals (s : State) (data : Value) : Res :=
  match data with
  | .sc (.s v) => addCondition s ("equals") ("=") (Value.sc (.s v)) [.tInt, .tStr]
  | .ls l => addCondition s ("equals") ("IN")
      (Value.sc (.s (String.intercalate (",") (l.map SVal.pyStr)))) [.tStr]
  | _ => (some (QErr.queryTypeError
      ("Expected value of type `str` or `list`, not " ++ data.pyTypeName)), s)

/-- Index and offender of the first non-str element, as str.join scans. -/
def firstNonStr : List SVal → Nat → Option (Nat × SVal)
  | [], _ => none
  | .s _ :: rest, i => firstNonStr rest (i + 1)
  | x :: _, i => some (i, x)

def SVal.pyShortName : SVal → String
  | .s _ => "str"
  | .i _ => "int"
  | .dt _ => "datetime.datetime"

/-- Python str.join: raises the built-in TypeError on a non-str element. -/
def pyJoin (sep : String) (l : List SVal) : Except QErr String :=
  match firstNonStr l 0 with
  | some (i, x) => .error (QErr.builtinTypeError
      ("sequence item " ++ toString i ++ ": expected str instance, " ++
        x.pyShortName ++ " found"))
  | none => .ok (String.intercalate sep (l.map SVal.pyStr))

/-- QueryBuilder.not_equals: unlike equals, the list branch joins the raw
elements, so str.join raises on any non-str element. -/
def not_equals (s : State) (data : Value) : Res :=
  match data with
  | .sc (.s v) => addCondition s ("not_equals") ("!=") (Value.sc (.s v)) [.tInt, .tStr]
  | .ls l =>
      match pyJoin (",") l with
      | .error e => (some e, s)
      | .ok j => addCondition s ("not_equals") ("NOT IN") (Value.sc (.s j)) [.tStr]
  | _ => (some (QErr.queryTypeError
      ("Expected value of type `str` or `list`, not " ++ data.pyTypeName)), s)

/-- QueryBuilder.greater_than: datetime-like operands are reformatted,
plain str operands are rejected up front, everything else is passed to the
shared validator. -/
def greater_than (s : State) (v : Value) : Res :=
  match v with
  | .sc (.dt d) =>
      addCondition s ("greater_than") (">") (Value.sc (.s d.strftime)) [.tInt, .tStr]
  | .sc (.s _) => (some (QErr.queryTypeError
      ("Expected value of type `int` or instance of `datetime`, not " ++
        v.pyTypeName)), s)
  | _ => addCondition s ("greater_than") (">") v [.tInt, .tStr]

/-- QueryBuilder.less_than. -/
def less_than (s : State) (v : Value) : Res :=
  match v with
  | .sc (.dt d) =>
      addCondition s ("less_than") ("<") (Value.sc (.s d.strftime)) [.tInt, .tStr]
  | .sc (.s _) => (some (QErr.queryTypeError
      ("Expected value of type `int` or instance of `datetime`, not " ++
        v.pyTypeName)), s)
  | _ => addCondition s ("less_than") ("<") v [.tInt, .tStr]

/-- QueryBuilder.between. -/
def between (s : State) (a b : Value) : Res :=
  match a, b with
  | .sc (.dt d1), .sc (.dt d2) =>
      addCondition s ("between") ("BETWEEN")
        (Value.sc (.s ("javascript:gs.dateGenerate(\"" ++ d1.strftime ++
          "\")@javascript:gs.dateGenerate(\"" ++ d2.strftime ++ "\")"))) [.tStr]
  | .sc (.i n1), .sc (.i n2) =>
      addCondition s ("between") ("BETWEEN")
        (Value.sc (.s (toString n1 ++ "@" ++ toString n2))) [.tStr]
  | _, _ => (some (QErr.queryTypeError
      ("Expected `start` and `end` of type `int` or instance of `datetime`, not " ++
        a.pyTypeName ++ " and " ++ b.pyTypeName)), s)

/-- QueryBuilder._add_logical_operator. -/
def addLogicalOperator (s : State) (caller : String) (operator : String) : Res :=
  if !(truthy s.c_oper) then
    (some (QErr.queryExpressionError
      ("Logical operators must be preceded by an expression")), s)
  else
    (none,
      { s with
          current_field := none,
          c_oper := none,
          l_oper := some caller,
          query := s.query ++ [operator] })

/-- QueryBuilder.AND. -/
def AND (s : State) : Res := addLogicalOperator s ("AND") ("^")

/-- QueryBuilder.OR. -/
def OR (s : State) : Res := addLogicalOperator s ("OR") ("^OR")

/-- QueryBuilder.NQ. -/
def NQ (s : State) : Res := addLogicalOperator s ("NQ") ("^NQ")

/-- QueryBuilder.__str__: serialization; reads the state, never writes. -/
def toQueryString (s : State) : Except QErr String :=
  if s.query.length == 0 then
    .error (QErr.queryEmpty ("At least one condition is required"))
  else if s.current_field.isNone then
    .error (QErr.queryMissingField ("Logical operator expects a field()"))
  else if s.c_oper.isNone then
    .error (QErr.queryExpressionError ("field() expects an expression"))
  else
    .ok (String.join s.query)

/-- The condition operations of the builder, with their operands. -/
inductive COp where
  | order_ascending
  | order_descending
  | starts_with (v : Value)
  | ends_with (v : Value)
  | contains (v : Value)
  | not_contains (v : Value)
  | is_empty
  | equals (v : Value)
  | not_equals (v : Value)
  | greater_than (v : Value)
  | less_than (v : Value)
  | between (a b : Value)
deriving DecidableEq, Repr

def applyCond (s : State) : COp → Res
  | .order_ascending => order_ascending s
  | .order_descending => order_descending s
  | .starts_with v => starts_with s v
  | .ends_with v => ends_with s v
  | .contains v => contains s v
  | .not_contains v => not_contains s v
  | .is_empty => is_empty s
  | .equals v => equals s v
  | .not_equals v => not_equals s v
  | .greater_than v => greater_than s v
  | .less_than v => less_than s v
  | .between a b => between s a b

/-- Every mutating operation of the builder. -/
inductive Op where
  | field (f : String)
  | cond (c : COp)
  | logAND
  | logOR
  | logNQ
deriving DecidableEq, Repr

def step (s : State) : Op → Res
  | .field f => (none, field s f)
  | .cond c => applyCond s c
  | .logAND => AND s
  | .logOR => OR s
  | .logNQ => NQ s

/-- States reachable from a fresh builder by successful calls only. -/
inductive Reachable : State → Prop where
  | init : Reachable initState
  | next (s s2 : State) (op : Op) : Reachable s → step s op = (none, s2) →
      Reachable s2

def allStr : List SVal → Bool
  | [] => true
  | .s _ :: rest => allStr rest
  | _ => false

/-- Operand acceptance per condition operation: exactly the operands on
which the operation can append (given a field and no pending condition). -/
def validOperand : COp → Bool
  | .order_ascending => true
  | .order_descending => true
  | .is_empty => true
  | .starts_with v => v.pyType == PyType.tStr
  | .ends_with v => v.pyType == PyType.tStr
  | .contains v => v.pyType == PyType.tStr
  | .not_contains v => v.pyType == PyType.tStr
  | .equals v => match v with
      | .sc (.s _) => true
      | .ls _ => true
      | _ => false
  | .not_equals v => match v with
      | .sc (.s _) => true
      | .ls l => allStr l
      | _ => false
  | .greater_than v => match v with
      | .sc (.i _) => true
      | .sc (.dt _) => true
      | _ => false
  | .less_than v => match v with
      | .sc (.i _) => true
      | .sc (.dt _) => true
      | _ => false
  | .between a b => match a, b with
      | .sc (.i _), .sc (.i _) => true
      | .sc (.dt _), .sc (.dt _) => true
      | _, _ => false

/-- The three logical-operator tokens. -/
def isLogicalTok (t : String) : Bool :=
  t == "^" || t == "^OR" || t == "^NQ"

def headNotLogical : List String → Bool
  | [] => true
  | t :: _ => !isLogicalTok t

def goodChain : List String → Bool
  | [] => true
  | [_] => true
  | a :: b :: rest => !(isLogicalTok a && isLogicalTok b) && goodChain (b :: rest)

/-- The token sequence does not start with a logical operator and has no
two adjacent logical operators. -/
def goodSeq (q : List String) : Bool :=
  headNotLogical q && goodChain q

def lastNotLogical (q : List String) : Bool :=
  match q.getLast? with
  | none => false
  | some t => !isLogicalTok t

lemma truthy_some (f : String) (hf : f ≠ "") : truthy (some f) = true := by
  simp [truthy, hf]

lemma addCondition_success (s : State) (caller operator : String)
    (operand : Value) (types : List PyType)
    (h1 : truthy s.current_field = true)
    (h2 : types.contains operand.pyType = true)
    (h3 : truthy s.c_oper = false) :
    addCondition s caller operator operand types =
      (none,
        { s with
            c_oper := some caller,
            query := s.query ++
              [optStr s.current_field ++ operator ++ operand.pyStr] }) := by
  simp [addCondition, h1, h3]
  exact List.mem_of_elem_eq_true h2

lemma addCondition_mult (s : State) (caller operator : String)
    (operand : Value) (types : List PyType)
    (h1 : truthy s.current_field = true)
    (h2 : types.contains operand.pyType = true)
    (h3 : truthy s.c_oper = true) :
    addCondition s caller operator operand types =
      (some (QErr.queryMultipleExpressions
        ("Expected logical operator after expression")), s) := by
  simp [addCondition, h1, h3]
  exact List.mem_of_elem_eq_true h2

lemma addCondition_unchanged_of_err (s s2 : State) (caller operator : String)
    (operand : Value) (types : List PyType) (e : QErr)
    (h : addCondition s caller operator operand types = (some e, s2)) :
    s2 = s := by
  unfold addCondition at h
  split at h
  · rw [Prod.mk.injEq] at h; exact h.2.symm
  split at h
  · rw [Prod.mk.injEq] at h; exact h.2.symm
  split at h
  · rw [Prod.mk.injEq] at h; exact h.2.symm
  · rw [Prod.mk.injEq] at h; exact absurd h.1 (by simp)

lemma addCondition_success_inv (s s2 : State) (caller operator : String)
    (operand : Value) (types : List PyType)
    (h : addCondition s caller operator operand types = (none, s2)) :
    truthy s.current_field = true ∧ truthy s.c_oper = false ∧
      s2 = { s with
        c_oper := some caller,
        query := s.query ++
          [optStr s.current_field ++ operator ++ operand.pyStr] } := by
  unfold addCondition at h
  split at h
  · rw [Prod.mk.injEq] at h; exact absurd h.1 (by simp)
  split at h
  · rw [Prod.mk.injEq] at h; exact absurd h.1 (by simp)
  split at h
  · rw [Prod.mk.injEq] at h; exact absurd h.1 (by simp)
  · rw [Prod.mk.injEq] at h
    rename_i hg1 hg2 hg3
    exact ⟨by simpa using hg1, by simpa using hg3, h.2.symm⟩

lemma addLogicalOperator_success (s : State) (caller operator : String)
    (h : truthy s.c_oper = true) :
    addLogicalOperator s caller operator =
      (none,
        { s with
            current_field := none,
            c_oper := none,
            l_oper := some caller,
            query := s.query ++ [operator] }) := by
  simp [addLogicalOperator, h]

lemma addLogicalOperator_err (s : State) (caller operator : String)
    (h : truthy s.c_oper = false) :
    addLogicalOperator s caller operator =
      (some (QErr.queryExpressionError
        ("Logical operators must be preceded by an expression")), s) := by
  simp [addLogicalOperator, h]

lemma addLogicalOperator_unchanged_of_err (s s2 : State)
    (caller operator : String) (e : QErr)
    (h : addLogicalOperator s caller operator = (some e, s2)) : s2 = s := by
  unfold addLogicalOperator at h
  split at h
  · rw [Prod.mk.injEq] at h; exact h.2.symm
  · rw [Prod.mk.injEq] at h; exact absurd h.1 (by simp)

lemma addLogicalOperator_success_inv (s s2 : State)
    (caller operator : String)
    (h : addLogicalOperator s caller operator = (none, s2)) :
    truthy s.c_oper = true ∧
      s2 = { s with
        current_field := none,
        c_oper := none,
        l_oper := some caller,
        query := s.query ++ [operator] } := by
  unfold addLogicalOperator at h
  split at h
  · rw [Prod.mk.injEq] at h; exact absurd h.1 (by simp)
  · rw [Prod.mk.injEq] at h
    rename_i hg
    exact ⟨by simpa using hg, h.2.symm⟩

lemma strData_append (a b : String) : (a ++ b).data = a.data ++ b.data := rfl

lemma join_singleton (t : String) : String.join [t] = t := by
  simp [String.join]

lemma ne_of_char_not_mem (t u : String) (c : Char) (hc : c ∈ t.data)
    (hu : c ∉ u.data) : t ≠ u := by
  rintro rfl; exact hu hc

lemma isLogicalTok_false_of_char (t : String) (c : Char) (hc : c ∈ t.data)
    (h1 : c ≠ '^') (h2 : c ≠ 'O') (h3 : c ≠ 'R') (h4 : c ≠ 'N')
    (h5 : c ≠ 'Q') : isLogicalTok t = false := by
  have d1 : t ≠ "^" := ne_of_char_not_mem _ _ c hc (by
    intro hm
    exact h1 (by simpa using hm))
  have d2 : t ≠ "^OR" := ne_of_char_not_mem _ _ c hc (by
    intro hm
    rcases (by simpa using hm : c = Char.ofNat 94 ∨ c = Char.ofNat 79 ∨ c = Char.ofNat 82) with hx | hx | hx
    · exact h1 hx
    · exact h2 hx
    · exact h3 hx)
  have d3 : t ≠ "^NQ" := ne_of_char_not_mem _ _ c hc (by
    intro hm
    rcases (by simpa using hm : c = Char.ofNat 94 ∨ c = Char.ofNat 78 ∨ c = Char.ofNat 81) with hx | hx | hx
    · exact h1 hx
    · exact h4 hx
    · exact h5 hx)
  simp [isLogicalTok, d1, d2, d3]

lemma isLogicalTok_frag_false (f op v : String) (c : Char) (hc : c ∈ op.data)
    (h1 : c ≠ '^') (h2 : c ≠ 'O') (h3 : c ≠ 'R') (h4 : c ≠ 'N')
    (h5 : c ≠ 'Q') : isLogicalTok (f ++ op ++ v) = false := by
  apply isLogicalTok_false_of_char _ c _ h1 h2 h3 h4 h5
  rw [strData_append, strData_append]
  exact List.mem_append_left _ (List.mem_append_right _ hc)

lemma lastNotLogical_append (q : List String) (t : String) :
    lastNotLogical (q ++ [t]) = !isLogicalTok t := by
  simp [lastNotLogical, List.getLast?_concat]

lemma goodChain_append (q : List String) (t : String)
    (hq : goodChain q = true)
    (h : isLogicalTok t = false ∨ lastNotLogical q = true) :
    goodChain (q ++ [t]) = true := by
  induction q with
  | nil => simp [goodChain]
  | cons a rest ih =>
    cases rest with
    | nil =>
      rcases h with h | h
      · simp [goodChain, h]
      · have ha : isLogicalTok a = false := by
          simpa [lastNotLogical] using h
        simp [goodChain, ha]
    | cons b rest2 =>
      have hq1 : (!(isLogicalTok a && isLogicalTok b)) = true :=
        ((Bool.and_eq_true _ _) ▸ hq).1
      have hq2 : goodChain (b :: rest2) = true :=
        ((Bool.and_eq_true _ _) ▸ hq).2
      have h2 : isLogicalTok t = false ∨ lastNotLogical (b :: rest2) = true := by
        rcases h with h | h
        · exact Or.inl h
        · right
          simpa [lastNotLogical, List.getLast?_cons_cons] using h
      have := ih hq2 h2
      simp only [List.cons_append] at this ⊢
      simp only [goodChain, Bool.and_eq_true]
      refine ⟨hq1, ?_⟩
      simpa using this

lemma goodSeq_append (q : List String) (t : String) (hq : goodSeq q = true)
    (h : isLogicalTok t = false ∨ lastNotLogical q = true) :
    goodSeq (q ++ [t]) = true := by
  have hh : headNotLogical q = true := ((Bool.and_eq_true _ _) ▸ hq).1
  have hc : goodChain q = true := ((Bool.and_eq_true _ _) ▸ hq).2
  have hchain := goodChain_append q t hc h
  cases q with
  | nil =>
    rcases h with h | h
    · simp [goodSeq, headNotLogical, goodChain, h]
    · simp [lastNotLogical] at h
  | cons a rest =>
    simp only [goodSeq, Bool.and_eq_true]
    refine ⟨?_, hchain⟩
    simpa [headNotLogical] using hh

lemma shape_of_addCondition (s s2 : State) (caller operator : String)
    (operand : Value) (types : List PyType) (c : Char)
    (hcal : truthy (some caller) = true)
    (hc : c ∈ operator.data)
    (h1 : c ≠ '^') (h2 : c ≠ 'O') (h3 : c ≠ 'R') (h4 : c ≠ 'N')
    (h5 : c ≠ 'Q')
    (h : addCondition s caller operator operand types = (none, s2)) :
    truthy s.current_field = true ∧ s2.current_field = s.current_field ∧
      truthy s2.c_oper = true ∧
      ∃ t, s2.query = s.query ++ [t] ∧ isLogicalTok t = false := by
  obtain ⟨hf, hco, hs⟩ := addCondition_success_inv _ _ _ _ _ _ h
  subst hs
  exact ⟨hf, rfl, hcal,
    ⟨_, rfl, isLogicalTok_frag_false _ _ _ c hc h1 h2 h3 h4 h5⟩⟩

/-- Any successful condition call leaves the current field in place (it was
truthy before and after), sets the pending-condition marker, and appends
exactly one token, which is not a logical-operator token. -/
lemma applyCond_success_shape (s s2 : State) (c : COp)
    (h : applyCond s c = (none, s2)) :
    truthy s.current_field = true ∧ s2.current_field = s.current_field ∧
      truthy s2.c_oper = true ∧
      ∃ t, s2.query = s.query ++ [t] ∧ isLogicalTok t = false := by
  cases c with
  | order_ascending =>
      simp only [applyCond, order_ascending] at h
      refine shape_of_addCondition _ _ _ _ _ _ 'D' (by decide) ?_ (by decide)
        (by decide) (by decide) (by decide) (by decide) h
      rw [strData_append]
      exact List.mem_append_left _ (by decide)
  | order_descending =>
      simp only [applyCond, order_descending] at h
      refine shape_of_addCondition _ _ _ _ _ _ 'D' (by decide) ?_ (by decide)
        (by decide) (by decide) (by decide) (by decide) h
      rw [strData_append]
      exact List.mem_append_left _ (by decide)
  | starts_with v =>
      simp only [applyCond, starts_with] at h
      exact shape_of_addCondition _ _ _ _ _ _ 'S' (by decide) (by decide)
        (by decide) (by decide) (by decide) (by decide) (by decide) h
  | ends_with v =>
      simp only [applyCond, ends_with] at h
      exact shape_of_addCondition _ _ _ _ _ _ 'E' (by decide) (by decide)
        (by decide) (by decide) (by decide) (by decide) (by decide) h
  | contains v =>
      simp only [applyCond, contains] at h
      exact shape_of_addCondition _ _ _ _ _ _ 'L' (by decide) (by decide)
        (by decide) (by decide) (by decide) (by decide) (by decide) h
  | not_contains v =>
      simp only [applyCond, not_contains] at h
      exact shape_of_addCondition _ _ _ _ _ _ 'L' (by decide) (by decide)
        (by decide) (by decide) (by decide) (by decide) (by decide) h
  | is_empty =>
      simp only [applyCond, is_empty] at h
      exact shape_of_addCondition _ _ _ _ _ _ 'S' (by decide) (by decide)
        (by decide) (by decide) (by decide) (by decide) (by decide) h
  | equals v =>
      cases v with
      | sc sv =>
          cases sv with
          | s x =>
              simp only [applyCond, equals] at h
              exact shape_of_addCondition _ _ _ _ _ _ '=' (by decide) (by decide)
                (by decide) (by decide) (by decide) (by decide) (by decide) h
          | i n => simp [applyCond, equals] at h
          | dt d => simp [applyCond, equals] at h
      | ls l =>
          simp only [applyCond, equals] at h
          exact shape_of_addCondition _ _ _ _ _ _ 'I' (by decide) (by decide)
            (by decide) (by decide) (by decide) (by decide) (by decide) h
  | not_equals v =>
      cases v with
      | sc sv =>
          cases sv with
          | s x =>
              simp only [applyCond, not_equals] at h
              exact shape_of_addCondition _ _ _ _ _ _ '!' (by decide) (by decide)
                (by decide) (by decide) (by decide) (by decide) (by decide) h
          | i n => simp [applyCond, not_equals] at h
          | dt d => simp [applyCond, not_equals] at h
      | ls l =>
          simp only [applyCond, not_equals] at h
          cases hj : pyJoin (",") l with
          | error e => simp only [hj] at h; simp at h
          | ok j =>
              simp only [hj] at h
              exact shape_of_addCondition _ _ _ _ _ _ 'T' (by decide) (by decide)
                (by decide) (by decide) (by decide) (by decide) (by decide) h
  | greater_than v =>
      cases v with
      | sc sv =>
          cases sv with
          | s x => simp [applyCond, greater_than] at h
          | i n =>
              simp only [applyCond, greater_than] at h
              exact shape_of_addCondition _ _ _ _ _ _ '>' (by decide) (by decide)
                (by decide) (by decide) (by decide) (by decide) (by decide) h
          | dt d =>
              simp only [applyCond, greater_than] at h
              exact shape_of_addCondition _ _ _ _ _ _ '>' (by decide) (by decide)
                (by decide) (by decide) (by decide) (by decide) (by decide) h
      | ls l =>
          simp only [applyCond, greater_than] at h
          exact shape_of_addCondition _ _ _ _ _ _ '>' (by decide) (by decide)
            (by decide) (by decide) (by decide) (by decide) (by decide) h
  | less_than v =>
      cases v with
      | sc sv =>
          cases sv with
          | s x => simp [applyCond, less_than] at h
          | i n =>
              simp only [applyCond, less_than] at h
              exact shape_of_addCondition _ _ _ _ _ _ '<' (by decide) (by decide)
                (by decide) (by decide) (by decide) (by decide) (by decide) h
          | dt d =>
              simp only [applyCond, less_than] at h
              exact shape_of_addCondition _ _ _ _ _ _ '<' (by decide) (by decide)
                (by decide) (by decide) (by decide) (by decide) (by decide) h
      | ls l =>
          simp only [applyCond, less_than] at h
          exact shape_of_addCondition _ _ _ _ _ _ '<' (by decide) (by decide)
            (by decide) (by decide) (by decide) (by decide) (by decide) h
  | between a b =>
      cases a with
      | sc sa =>
          cases sa with
          | s x =>
              cases b with
              | sc sb => cases sb <;> simp [applyCond, between] at h
              | ls lb => simp [applyCond, between] at h
          | i n1 =>
              cases b with
              | sc sb =>
                  cases sb with
                  | s x => simp [applyCond, between] at h
                  | i n2 =>
                      simp only [applyCond, between] at h
                      exact shape_of_addCondition _ _ _ _ _ _ 'B' (by decide)
                        (by decide) (by decide) (by decide) (by decide)
                        (by decide) (by decide) h
                  | dt d => simp [applyCond, between] at h
              | ls lb => simp [applyCond, between] at h
          | dt d1 =>
              cases b with
              | sc sb =>
                  cases sb with
                  | s x => simp [applyCond, between] at h
                  | i n => simp [applyCond, between] at h
                  | dt d2 =>
                      simp only [applyCond, between] at h
                      exact shape_of_addCondition _ _ _ _ _ _ 'B' (by decide)
                        (by decide) (by decide) (by decide) (by decide)
                        (by decide) (by decide) h
              | ls lb => simp [applyCond, between] at h
      | ls la =>
          cases b with
          | sc sb => cases sb <;> simp [applyCond, between] at h
          | ls lb => simp [applyCond, between] at h

lemma firstNonStr_none_of_allStr (l : List SVal) (h : allStr l = true) :
    ∀ i, firstNonStr l i = none := by
  induction l with
  | nil => intro i; rfl
  | cons x rest ih =>
      cases x with
      | s v =>
          intro i
          have hr := ih (by simpa [allStr] using h)
          simp [firstNonStr, hr]
      | i n => simp [allStr] at h
      | dt d => simp [allStr] at h

lemma pyJoin_ok_of_allStr (sep : String) (l : List SVal)
    (h : allStr l = true) :
    pyJoin sep l = .ok (String.intercalate sep (l.map SVal.pyStr)) := by
  simp [pyJoin, firstNonStr_none_of_allStr l h 0]

/-- With a field selected and a condition already pending, every condition
operation whose operand it accepts raises QueryMultipleExpressions and
leaves the state unchanged. -/
lemma applyCond_pending_mult (s : State) (c : COp)
    (hf : truthy s.current_field = true) (hco : truthy s.c_oper = true)
    (hv : validOperand c = true) :
    applyCond s c = (some (QErr.queryMultipleExpressions
      ("Expected logical operator after expression")), s) := by
  cases c with
  | order_ascending =>
      simp only [applyCond, order_ascending]
      exact addCondition_mult _ _ _ _ _ hf (by rfl) hco
  | order_descending =>
      simp only [applyCond, order_descending]
      exact addCondition_mult _ _ _ _ _ hf (by rfl) hco
  | is_empty =>
      simp only [applyCond, is_empty]
      exact addCondition_mult _ _ _ _ _ hf (by rfl) hco
  | starts_with v =>
      have hv2 : v.pyType = PyType.tStr := by simpa [validOperand] using hv
      simp only [applyCond, starts_with]
      exact addCondition_mult _ _ _ _ _ hf (by rw [hv2]; decide) hco
  | ends_with v =>
      have hv2 : v.pyType = PyType.tStr := by simpa [validOperand] using hv
      simp only [applyCond, ends_with]
      exact addCondition_mult _ _ _ _ _ hf (by rw [hv2]; decide) hco
  | contains v =>
      have hv2 : v.pyType = PyType.tStr := by simpa [validOperand] using hv
      simp only [applyCond, contains]
      exact addCondition_mult _ _ _ _ _ hf (by rw [hv2]; decide) hco
  | not_contains v =>
      have hv2 : v.pyType = PyType.tStr := by simpa [validOperand] using hv
      simp only [applyCond, not_contains]
      exact addCondition_mult _ _ _ _ _ hf (by rw [hv2]; decide) hco
  | equals v =>
      cases v with
      | sc sv =>
          cases sv with
          | s x =>
              simp only [applyCond, equals]
              exact addCondition_mult _ _ _ _ _ hf (by rfl) hco
          | i n => simp [validOperand] at hv
          | dt d => simp [validOperand] at hv
      | ls l =>
          simp only [applyCond, equals]
          exact addCondition_mult _ _ _ _ _ hf (by rfl) hco
  | not_equals v =>
      cases v with
      | sc sv =>
          cases sv with
          | s x =>
              simp only [applyCond, not_equals]
              exact addCondition_mult _ _ _ _ _ hf (by rfl) hco
          | i n => simp [validOperand] at hv
          | dt d => simp [validOperand] at hv
      | ls l =>
          have hv2 : allStr l = true := by simpa [validOperand] using hv
          simp only [applyCond, not_equals, pyJoin_ok_of_allStr (",") l hv2]
          exact addCondition_mult _ _ _ _ _ hf (by rfl) hco
  | greater_than v =>
      cases v with
      | sc sv =>
          cases sv with
          | s x => simp [validOperand] at hv
          | i n =>
              simp only [applyCond, greater_than]
              exact addCondition_mult _ _ _ _ _ hf (by rfl) hco
          | dt d =>
              simp only [applyCond, greater_than]
              exact addCondition_mult _ _ _ _ _ hf (by rfl) hco
      | ls l => simp [validOperand] at hv
  | less_than v =>
      cases v with
      | sc sv =>
          cases sv with
          | s x => simp [validOperand] at hv
          | i n =>
              simp only [applyCond, less_than]
              exact addCondition_mult _ _ _ _ _ hf (by rfl) hco
          | dt d =>
              simp only [applyCond, less_than]
              exact addCondition_mult _ _ _ _ _ hf (by rfl) hco
      | ls l => simp [validOperand] at hv
  | between a b =>
      cases a with
      | sc sa =>
          cases sa with
          | s x =>
              cases b with
              | sc sb => cases sb <;> simp [validOperand] at hv
              | ls lb => simp [validOperand] at hv
          | i n1 =>
              cases b with
              | sc sb =>
                  cases sb with
                  | s x => simp [validOperand] at hv
                  | i n2 =>
                      simp only [applyCond, between]
                      exact addCondition_mult _ _ _ _ _ hf (by rfl) hco
                  | dt d => simp [validOperand] at hv
              | ls lb => simp [validOperand] at hv
          | dt d1 =>
              cases b with
              | sc sb =>
                  cases sb with
                  | s x => simp [validOperand] at hv
                  | i n => simp [validOperand] at hv
                  | dt d2 =>
                      simp only [applyCond, between]
                      exact addCondition_mult _ _ _ _ _ hf (by rfl) hco
              | ls lb => simp [validOperand] at hv
      | ls la =>
          cases b with
          | sc sb => cases sb <;> simp [validOperand] at hv
          | ls lb => simp [validOperand] at hv

/-- Every failing condition call leaves the builder unchanged. -/
lemma applyCond_err_unchanged (s s2 : State) (c : COp) (e : QErr)
    (h : applyCond s c = (some e, s2)) : s2 = s := by
  cases c with
  | order_ascending =>
      simp only [applyCond, order_ascending] at h
      exact addCondition_unchanged_of_err _ _ _ _ _ _ _ h
  | order_descending =>
      simp only [applyCond, order_descending] at h
      exact addCondition_unchanged_of_err _ _ _ _ _ _ _ h
  | starts_with v =>
      simp only [applyCond, starts_with] at h
      exact addCondition_unchanged_of_err _ _ _ _ _ _ _ h
  | ends_with v =>
      simp only [applyCond, ends_with] at h
      exact addCondition_unchanged_of_err _ _ _ _ _ _ _ h
  | contains v =>
      simp only [applyCond, contains] at h
      exact addCondition_unchanged_of_err _ _ _ _ _ _ _ h
  | not_contains v =>
      simp only [applyCond, not_contains] at h
      exact addCondition_unchanged_of_err _ _ _ _ _ _ _ h
  | is_empty =>
      simp only [applyCond, is_empty] at h
      exact addCondition_unchanged_of_err _ _ _ _ _ _ _ h
  | equals v =>
      cases v with
      | sc sv =>
          cases sv with
          | s x =>
              simp only [applyCond, equals] at h
              exact addCondition_unchanged_of_err _ _ _ _ _ _ _ h
          | i n =>
              simp only [applyCond, equals] at h
              rw [Prod.mk.injEq] at h; exact h.2.symm
          | dt d =>
              simp only [applyCond, equals] at h
              rw [Prod.mk.injEq] at h; exact h.2.symm
      | ls l =>
          simp only [applyCond, equals] at h
          exact addCondition_unchanged_of_err _ _ _ _ _ _ _ h
  | not_equals v =>
      cases v with
      | sc sv =>
          cases sv with
          | s x =>
              simp only [applyCond, not_equals] at h
              exact addCondition_unchanged_of_err _ _ _ _ _ _ _ h
          | i n =>
              simp only [applyCond, not_equals] at h
              rw [Prod.mk.injEq] at h; exact h.2.symm
          | dt d =>
              simp only [applyCond, not_equals] at h
              rw [Prod.mk.injEq] at h; exact h.2.symm
      | ls l =>
          simp only [applyCond, not_equals] at h
          cases hj : pyJoin (",") l with
          | error e2 =>
              simp only [hj] at h
              rw [Prod.mk.injEq] at h; exact h.2.symm
          | ok j =>
              simp only [hj] at h
              exact addCondition_unchanged_of_err _ _ _ _ _ _ _ h
  | greater_than v =>
      cases v with
      | sc sv =>
          cases sv with
          | s x =>
              simp only [applyCond, greater_than] at h
              rw [Prod.mk.injEq] at h; exact h.2.symm
          | i n =>
              simp only [applyCond, greater_than] at h
              exact addCondition_unchanged_of_err _ _ _ _ _ _ _ h
          | dt d =>
              simp only [applyCond, greater_than] at h
              exact addCondition_unchanged_of_err _ _ _ _ _ _ _ h
      | ls l =>
          simp only [applyCond, greater_than] at h
          exact addCondition_unchanged_of_err _ _ _ _ _ _ _ h
  | less_than v =>
      cases v with
      | sc sv =>
          cases sv with
          | s x =>
              simp only [applyCond, less_than] at h
              rw [Prod.mk.injEq] at h; exact h.2.symm
          | i n =>
              simp only [applyCond, less_than] at h
              exact addCondition_unchanged_of_err _ _ _ _ _ _ _ h
          | dt d =>
              simp only [applyCond, less_than] at h
              exact addCondition_unchanged_of_err _ _ _ _ _ _ _ h
      | ls l =>
          simp only [applyCond, less_than] at h
          exact addCondition_unchanged_of_err _ _ _ _ _ _ _ h
  | between a b =>
      cases a with
      | sc sa =>
          cases sa with
          | s x =>
              cases b with
              | sc sb =>
                  cases sb <;>
                    (simp only [applyCond, between] at h
                     rw [Prod.mk.injEq] at h
                     exact h.2.symm)
              | ls lb =>
                  simp only [applyCond, between] at h
                  rw [Prod.mk.injEq] at h; exact h.2.symm
          | i n1 =>
              cases b with
              | sc sb =>
                  cases sb with
                  | s x =>
                      simp only [applyCond, between] at h
                      rw [Prod.mk.injEq] at h; exact h.2.symm
                  | i n2 =>
                      simp only [applyCond, between] at h
                      exact addCondition_unchanged_of_err _ _ _ _ _ _ _ h
                  | dt d =>
                      simp only [applyCond, between] at h
                      rw [Prod.mk.injEq] at h; exact h.2.symm
              | ls lb =>
                  simp only [applyCond, between] at h
                  rw [Prod.mk.injEq] at h; exact h.2.symm
          | dt d1 =>
              cases b with
              | sc sb =>
                  cases sb with
                  | s x =>
                      simp only [applyCond, between] at h
                      rw [Prod.mk.injEq] at h; exact h.2.symm
                  | i n =>
                      simp only [applyCond, between] at h
                      rw [Prod.mk.injEq] at h; exact h.2.symm
                  | dt d2 =>
                      simp only [applyCond, between] at h
                      exact addCondition_unchanged_of_err _ _ _ _ _ _ _ h
              | ls lb =>
                  simp only [applyCond, between] at h
                  rw [Prod.mk.injEq] at h; exact h.2.symm
      | ls la =>
          cases b with
          | sc sb =>
              cases sb <;>
                (simp only [applyCond, between] at h
                 rw [Prod.mk.injEq] at h
                 exact h.2.symm)
          | ls lb =>
              simp only [applyCond, between] at h
              rw [Prod.mk.injEq] at h; exact h.2.symm

/-- The invariant carried through reachable states for claim C10. -/
def Inv (s : State) : Prop :=
  goodSeq s.query = true ∧
    (truthy s.c_oper = true → lastNotLogical s.query = true)

lemma inv_init : Inv initState := by
  constructor
  · rfl
  · intro h; simp [truthy, initState] at h

lemma inv_step (s s2 : State) (op : Op) (hI : Inv s)
    (h : step s op = (none, s2)) : Inv s2 := by
  cases op with
  | field f =>
      simp only [step] at h
      rw [Prod.mk.injEq] at h
      rw [← h.2]
      exact ⟨hI.1, hI.2⟩
  | cond c =>
      obtain ⟨hf, hcf, hco, t, hq, ht⟩ := applyCond_success_shape _ _ _ h
      constructor
      · rw [hq]
        exact goodSeq_append _ _ hI.1 (Or.inl ht)
      · intro _
        rw [hq, lastNotLogical_append, ht]
        rfl
  | logAND =>
      simp only [step, AND] at h
      obtain ⟨hco, hs⟩ := addLogicalOperator_success_inv _ _ _ _ h
      subst hs
      constructor
      · exact goodSeq_append _ _ hI.1 (Or.inr (hI.2 hco))
      · intro hcontr; simp [truthy] at hcontr
  | logOR =>
      simp only [step, OR] at h
      obtain ⟨hco, hs⟩ := addLogicalOperator_success_inv _ _ _ _ h
      subst hs
      constructor
      · exact goodSeq_append _ _ hI.1 (Or.inr (hI.2 hco))
      · intro hcontr; simp [truthy] at hcontr
  | logNQ =>
      simp only [step, NQ] at h
      obtain ⟨hco, hs⟩ := addLogicalOperator_success_inv _ _ _ _ h
      subst hs
      constructor
      · exact goodSeq_append _ _ hI.1 (Or.inr (hI.2 hco))
      · intro hcontr; simp [truthy] at hcontr

lemma reachable_inv (s : State) (h : Reachable s) : Inv s := by
  induction h with
  | init => exact inv_init
  | next s s2 op hr hstep ih => exact inv_step _ _ _ ih hstep

/-- C4 (documents the code bug): with field foo selected, order_ascending
appends the token fooORDERBYfoo and order_descending appends
fooORDERBYDESCfoo, not the bare ORDERBYfoo / ORDERBYDESCfoo directives the
spec gives: _add_condition prefixes the current field onto an operator
string that already interpolates the same field. -/
theorem c4_orderby_token_duplication :
    order_ascending (field initState ("foo")) =
      (none, State.mk [("fooORDERBYfoo")] (some ("foo"))
        (some ("order_ascending")) none) ∧
    order_descending (field initState ("foo")) =
      (none, State.mk [("fooORDERBYDESCfoo")] (some ("foo"))
        (some ("order_descending")) none) :=
  ⟨rfl, rfl⟩

/-- C2 counterexample: a=1 followed by AND leaves a dangling logical
operator, yet finalization raises QueryMissingField there, not the
expression-required error the claim assigns to that state; conversely a
selected field with no condition on a nonempty query finalizes to
QueryExpressionError, not QueryMissingField. -/
theorem c2_finalize_error_attribution_counterexample :
    (AND (equals (field initState ("a")) (Value.sc (SVal.s ("1")))).2).1 = none ∧
    toQueryString (AND (equals (field initState ("a")) (Value.sc (SVal.s ("1")))).2).2 =
      Except.error (QErr.queryMissingField ("Logical operator expects a field()")) ∧
    toQueryString
        (field (AND (equals (field initState ("a")) (Value.sc (SVal.s ("1")))).2).2 ("b")) =
      Except.error (QErr.queryExpressionError ("field() expects an expression")) :=
  ⟨rfl, rfl, rfl⟩

/-- C2 (amended): finalization raises QueryEmpty whenever the token
sequence is empty (so a bare field selection on a fresh builder also
finalizes to QueryEmpty); it raises QueryMissingField whenever the query
is nonempty and no current field is set, the state a trailing logical
operator leaves; and it raises QueryExpressionError whenever the query is
nonempty, a field is set, and no condition is pending, the state a bare
field selection after a completed pair leaves. -/
theorem c2_finalize_error_attribution_amended (s : State) :
    (s.query = [] →
      toQueryString s =
        Except.error (QErr.queryEmpty ("At least one condition is required"))) ∧
    (s.query ≠ [] → s.current_field = none →
      toQueryString s =
        Except.error (QErr.queryMissingField ("Logical operator expects a field()"))) ∧
    (s.query ≠ [] → s.current_field.isSome = true → s.c_oper = none →
      toQueryString s =
        Except.error (QErr.queryExpressionError ("field() expects an expression"))) := by
  refine ⟨?_, ?_, ?_⟩
  · intro h1
    simp [toQueryString, h1]
  · intro h1 h2
    simp [toQueryString, h1, h2]
  · intro h1 h2 h3
    simp [toQueryString, h1, h2, h3, Option.isNone_iff_eq_none]
    intro hcontr
    rw [hcontr] at h2
    simp at h2

/-- C2 witness: the three finalization errors at concrete states. -/
theorem c2_finalize_error_attribution_amended_witness :
    toQueryString initState =
      Except.error (QErr.queryEmpty ("At least one condition is required")) ∧
    toQueryString (State.mk [("a=1"), ("^")] none none (some ("AND"))) =
      Except.error (QErr.queryMissingField ("Logical operator expects a field()")) ∧
    toQueryString (State.mk [("a=1")] (some ("b")) none none) =
      Except.error (QErr.queryExpressionError ("field() expects an expression")) :=
  ⟨(c2_finalize_error_attribution_amended initState).1 rfl,
   (c2_finalize_error_attribution_amended _).2.1 (by decide) rfl,
   (c2_finalize_error_attribution_amended _).2.2 (by decide) rfl rfl⟩

/-- C3 counterexample: after a=1, re-selecting field b does not clear the
pending-condition marker, so a new condition without a logical operator is
rejected with QueryMultipleExpressions instead of being allowed. -/
theorem c3_field_reselect_counterexample :
    (field (equals (field initState ("a")) (Value.sc (SVal.s ("1")))).2 ("b")).c_oper =
      some ("equals") ∧
    equals (field (equals (field initState ("a")) (Value.sc (SVal.s ("1")))).2 ("b"))
        (Value.sc (SVal.s ("2"))) =
      (some (QErr.queryMultipleExpressions
        ("Expected logical operator after expression")),
        field (equals (field initState ("a")) (Value.sc (SVal.s ("1")))).2 ("b")) :=
  ⟨rfl, rfl⟩

/-- C3 (amended): field(f) sets the current field and leaves every other
attribute, in particular the pending-condition marker, untouched; hence
after a completed field+condition pair, re-selecting a nonempty field does
not license a new condition without a logical operator: any condition with
an accepted operand is rejected with QueryMultipleExpressions. -/
theorem c3_field_keeps_pending_marker (s : State) (f : String) (c : COp)
    (hf : f ≠ "") (hco : truthy s.c_oper = true) (hv : validOperand c = true) :
    field s f = { s with current_field := some f } ∧
    (field s f).c_oper = s.c_oper ∧
    applyCond (field s f) c =
      (some (QErr.queryMultipleExpressions
        ("Expected logical operator after expression")), field s f) := by
  refine ⟨rfl, rfl, ?_⟩
  exact applyCond_pending_mult _ _ (truthy_some f hf) hco hv

/-- C3 witness: the amended statement at a concrete mid-query state. -/
theorem c3_field_keeps_pending_marker_witness :
    applyCond (field (State.mk [("a=1")] (some ("a")) (some ("equals")) none) ("b"))
        (COp.equals (Value.sc (SVal.s ("2")))) =
      (some (QErr.queryMultipleExpressions
        ("Expected logical operator after expression")),
        field (State.mk [("a=1")] (some ("a")) (some ("equals")) none) ("b")) :=
  (c3_field_keeps_pending_marker
    (State.mk [("a=1")] (some ("a")) (some ("equals")) none) ("b")
    (COp.equals (Value.sc (SVal.s ("2")))) (by decide) (by rfl) (by rfl)).2.2

/-- C5 counterexample: on the list 1, 2 of integers, equals succeeds and
appends fIN1,2, while not_equals raises the built-in TypeError of
str.join, so not_equals does not succeed on the lists equals succeeds
on. -/
theorem c5_not_equals_list_counterexample :
    equals (field initState ("f")) (Value.ls [SVal.i 1, SVal.i 2]) =
      (none, State.mk [("fIN1,2")] (some ("f")) (some ("equals")) none) ∧
    not_equals (field initState ("f")) (Value.ls [SVal.i 1, SVal.i 2]) =
      (some (QErr.builtinTypeError
        ("sequence item 0: expected str instance, int found")),
        field initState ("f")) :=
  ⟨rfl, rfl⟩

/-- C5 (amended): not_equals mirrors equals with the operator replaced on
text operands (using !=) and on lists whose elements are all strings
(using NOT IN with the comma-joined values); a scalar operand of any other
kind raises the same QueryTypeError; but where equals stringifies every
list element and so succeeds on every list, not_equals joins the raw
elements, and any error str.join raises on a list with a non-string
element propagates with the state unchanged. -/
theorem c5_not_equals_mirrors_equals_amended (f v : String) (l m : List SVal)
    (w : SVal) (hf : f ≠ "") (hl : allStr l = true) (hw : w.isStr = false) :
    not_equals (field initState f) (Value.sc (SVal.s v)) =
      (none,
        { query := [f ++ "!=" ++ v],
          current_field := some f,
          c_oper := some ("not_equals"),
          l_oper := none }) ∧
    not_equals (field initState f) (Value.ls l) =
      (none,
        { query := [f ++ "NOT IN" ++ String.intercalate (",") (l.map SVal.pyStr)],
          current_field := some f,
          c_oper := some ("not_equals"),
          l_oper := none }) ∧
    not_equals (field initState f) (Value.sc w) =
      (some (QErr.queryTypeError
        ("Expected value of type `str` or `list`, not " ++ (Value.sc w).pyTypeName)),
        field initState f) ∧
    (∀ e, pyJoin (",") m = Except.error e →
      not_equals (field initState f) (Value.ls m) = (some e, field initState f)) ∧
    (equals (field initState f) (Value.ls m)).1 = none := by
  have hft : truthy (field initState f).current_field = true := truthy_some f hf
  refine ⟨?_, ?_, ?_, ?_, ?_⟩
  · show addCondition (field initState f) ("not_equals") ("!=")
      (Value.sc (SVal.s v)) [.tInt, .tStr] = _
    rw [addCondition_success _ _ _ _ _ hft (by rfl) (by rfl)]
    simp [field, initState, optStr, SVal.pyStr, Value.pyStr]
  · simp only [not_equals, pyJoin_ok_of_allStr (",") l hl]
    rw [addCondition_success _ _ _ _ _ hft (by rfl) (by rfl)]
    simp [field, initState, optStr, SVal.pyStr, Value.pyStr]
  · cases w with
    | s x => simp [SVal.isStr] at hw
    | i n => rfl
    | dt d => rfl
  · intro e he
    simp only [not_equals, he]
  · cases hr : (equals (field initState f) (Value.ls m)).1 with
    | none => rfl
    | some e =>
        have : equals (field initState f) (Value.ls m) =
            (some e, (equals (field initState f) (Value.ls m)).2) := by
          rw [← hr]
        rw [show equals (field initState f) (Value.ls m) =
            addCondition (field initState f) ("equals") ("IN")
              (Value.sc (SVal.s (String.intercalate (",") (m.map SVal.pyStr))))
              [.tStr] from rfl,
          addCondition_success _ _ _ _ _ hft (by rfl) (by rfl)] at hr
        simp at hr

/-- C5 witness: the amended statement at concrete inputs. -/
theorem c5_not_equals_mirrors_equals_amended_witness :
    not_equals (field initState ("state")) (Value.sc (SVal.s ("6"))) =
      (none,
        { query := [("state!=6")],
          current_field := some ("state"),
          c_oper := some ("not_equals"),
          l_oper := none }) ∧
    not_equals (field initState ("state")) (Value.ls [SVal.s ("1"), SVal.s ("2")]) =
      (none,
        { query := [("stateNOT IN1,2")],
          current_field := some ("state"),
          c_oper := some ("not_equals"),
          l_oper := none }) ∧
    not_equals (field initState ("state")) (Value.sc (SVal.dt (DateTime.mk 2020 1 2 3 4 5))) =
      (some (QErr.queryTypeError
        ("Expected value of type `str` or `list`, not " ++
          (Value.sc (SVal.dt (DateTime.mk 2020 1 2 3 4 5))).pyTypeName)),
        field initState ("state")) ∧
    not_equals (field initState ("state")) (Value.ls [SVal.i 9]) =
      (some (QErr.builtinTypeError
        ("sequence item 0: expected str instance, int found")),
        field initState ("state")) ∧
    (equals (field initState ("state")) (Value.ls [SVal.i 9])).1 = none := by
  have h := c5_not_equals_mirrors_equals_amended ("state") ("6")
    [SVal.s ("1"), SVal.s ("2")] [SVal.i 9]
    (SVal.dt (DateTime.mk 2020 1 2 3 4 5)) (by decide) (by rfl) (by rfl)
  refine ⟨?_, ?_, h.2.2.1, ?_, h.2.2.2.2⟩
  · have h1 := h.1
    simpa using h1
  · have h2 := h.2.1
    simpa using h2
  · exact h.2.2.2.1 _ rfl

/-- C1: for every nonempty field name f (the builder treats an empty field
string as no selection, since the field check uses Python truthiness):
after field(f) on a fresh builder, equals with a text operand v appends
exactly the fragment f=v and finalization then yields exactly f=v; equals
with a list operand appends fIN followed by the comma-joined stringified
elements and succeeds; equals with a scalar operand of any other kind
raises QueryTypeError and appends nothing. -/
theorem c1_select_equals_serialization (f v : String) (l : List SVal)
    (w : SVal) (hf : f ≠ "") (hw : w.isStr = false) :
    equals (field initState f) (Value.sc (SVal.s v)) =
      (none,
        { query := [f ++ "=" ++ v],
          current_field := some f,
          c_oper := some ("equals"),
          l_oper := none }) ∧
    toQueryString (equals (field initState f) (Value.sc (SVal.s v))).2 =
      Except.ok (f ++ "=" ++ v) ∧
    equals (field initState f) (Value.ls l) =
      (none,
        { query := [f ++ "IN" ++ String.intercalate (",") (l.map SVal.pyStr)],
          current_field := some f,
          c_oper := some ("equals"),
          l_oper := none }) ∧
    equals (field initState f) (Value.sc w) =
      (some (QErr.queryTypeError
        ("Expected value of type `str` or `list`, not " ++ (Value.sc w).pyTypeName)),
        field initState f) := by
  have hft : truthy (field initState f).current_field = true := truthy_some f hf
  have htext : equals (field initState f) (Value.sc (SVal.s v)) =
      (none,
        { query := [f ++ "=" ++ v],
          current_field := some f,
          c_oper := some ("equals"),
          l_oper := none }) := by
    show addCondition (field initState f) ("equals") ("=")
      (Value.sc (SVal.s v)) [.tInt, .tStr] = _
    rw [addCondition_success _ _ _ _ _ hft (by rfl) (by rfl)]
    simp [field, initState, optStr, SVal.pyStr, Value.pyStr]
  refine ⟨htext, ?_, ?_, ?_⟩
  · rw [htext]
    show toQueryString _ = _
    simp [toQueryString, String.join]
  · show addCondition (field initState f) ("equals") ("IN")
      (Value.sc (SVal.s (String.intercalate (",") (l.map SVal.pyStr)))) [.tStr] = _
    rw [addCondition_success _ _ _ _ _ hft (by rfl) (by rfl)]
    simp [field, initState, optStr, SVal.pyStr, Value.pyStr]
  · cases w with
    | s x => simp [SVal.isStr] at hw
    | i n => rfl
    | dt d => rfl

/-- C1 witness: the statement at concrete inputs. -/
theorem c1_select_equals_serialization_witness :
    equals (field initState ("priority")) (Value.sc (SVal.s ("1"))) =
      (none,
        { query := [("priority=1")],
          current_field := some ("priority"),
          c_oper := some ("equals"),
          l_oper := none }) ∧
    toQueryString (equals (field initState ("priority")) (Value.sc (SVal.s ("1")))).2 =
      Except.ok ("priority=1") ∧
    equals (field initState ("priority")) (Value.ls [SVal.s ("a"), SVal.i 2]) =
      (none,
        { query := [("priorityINa,2")],
          current_field := some ("priority"),
          c_oper := some ("equals"),
          l_oper := none }) ∧
    equals (field initState ("priority")) (Value.sc (SVal.i 7)) =
      (some (QErr.queryTypeError
        ("Expected value of type `str` or `list`, not " ++
          (Value.sc (SVal.i 7)).pyTypeName)),
        field initState ("priority")) := by
  have h := c1_select_equals_serialization ("priority") ("1")
    [SVal.s ("a"), SVal.i 2] (SVal.i 7) (by decide) (by rfl)
  refine ⟨?_, ?_, ?_, h.2.2.2⟩
  · simpa using h.1
  · simpa using h.2.1
  · simpa using h.2.2.1

/-- C6: with a current nonempty field f selected and no condition pending,
greater_than and less_than raise QueryTypeError naming the accepted types
(int, datetime) on every plain text operand; they accept an integer
operand unchanged and a datetime operand formatted as
YYYY-MM-DD HH:MM:SS, appending the fragment with operator > resp. <. -/
theorem c6_relational_type_screen (s : State) (f v : String) (n : Int)
    (d : DateTime) (hcf : s.current_field = some f) (hf : f ≠ "")
    (hco : s.c_oper = none) :
    greater_than s (Value.sc (SVal.s v)) =
      (some (QErr.queryTypeError
        ("Expected value of type `int` or instance of `datetime`, not " ++
          (Value.sc (SVal.s v)).pyTypeName)), s) ∧
    less_than s (Value.sc (SVal.s v)) =
      (some (QErr.queryTypeError
        ("Expected value of type `int` or instance of `datetime`, not " ++
          (Value.sc (SVal.s v)).pyTypeName)), s) ∧
    greater_than s (Value.sc (SVal.i n)) =
      (none,
        { s with
            c_oper := some ("greater_than"),
            query := s.query ++ [f ++ ">" ++ toString n] }) ∧
    less_than s (Value.sc (SVal.i n)) =
      (none,
        { s with
            c_oper := some ("less_than"),
            query := s.query ++ [f ++ "<" ++ toString n] }) ∧
    greater_than s (Value.sc (SVal.dt d)) =
      (none,
        { s with
            c_oper := some ("greater_than"),
            query := s.query ++ [f ++ ">" ++ d.strftime] }) ∧
    less_than s (Value.sc (SVal.dt d)) =
      (none,
        { s with
            c_oper := some ("less_than"),
            query := s.query ++ [f ++ "<" ++ d.strftime] }) := by
  have hft : truthy s.current_field = true := by
    rw [hcf]; exact truthy_some f hf
  have hcot : truthy s.c_oper = false := by
    rw [hco]; rfl
  refine ⟨rfl, rfl, ?_, ?_, ?_, ?_⟩
  · show addCondition s ("greater_than") (">") (Value.sc (SVal.i n)) [.tInt, .tStr] = _
    rw [addCondition_success _ _ _ _ _ hft (by rfl) hcot]
    simp [optStr, hcf, SVal.pyStr, Value.pyStr]
  · show addCondition s ("less_than") ("<") (Value.sc (SVal.i n)) [.tInt, .tStr] = _
    rw [addCondition_success _ _ _ _ _ hft (by rfl) hcot]
    simp [optStr, hcf, SVal.pyStr, Value.pyStr]
  · show addCondition s ("greater_than") (">")
      (Value.sc (SVal.s d.strftime)) [.tInt, .tStr] = _
    rw [addCondition_success _ _ _ _ _ hft (by rfl) hcot]
    simp [optStr, hcf, SVal.pyStr, Value.pyStr]
  · show addCondition s ("less_than") ("<")
      (Value.sc (SVal.s d.strftime)) [.tInt, .tStr] = _
    rw [addCondition_success _ _ _ _ _ hft (by rfl) hcot]
    simp [optStr, hcf, SVal.pyStr, Value.pyStr]

/-- C6 witness: the statement at a concrete state and operands. -/
theorem c6_relational_type_screen_witness :
    greater_than (field initState ("pri")) (Value.sc (SVal.s ("high"))) =
      (some (QErr.queryTypeError
        ("Expected value of type `int` or instance of `datetime`, not " ++
          (Value.sc (SVal.s ("high"))).pyTypeName)), field initState ("pri")) ∧
    greater_than (field initState ("pri")) (Value.sc (SVal.i 5)) =
      (none,
        { field initState ("pri") with
            c_oper := some ("greater_than"),
            query := [("pri>5")] }) ∧
    less_than (field initState ("pri")) (Value.sc (SVal.dt (DateTime.mk 2020 1 2 3 4 5))) =
      (none,
        { field initState ("pri") with
            c_oper := some ("less_than"),
            query := [("pri<2020-01-02 03:04:05")] }) := by
  have h := c6_relational_type_screen (field initState ("pri")) ("pri") ("high")
    5 (DateTime.mk 2020 1 2 3 4 5) rfl (by decide) rfl
  refine ⟨h.1, ?_, ?_⟩
  · have h3 := h.2.2.1
    simpa using h3
  · have h6 := h.2.2.2.2.2
    simpa [DateTime.strftime, pad2, pad4] using h6

/-- C7: with a current nonempty field f selected and no condition pending,
between appends fBETWEEN followed by start@end on an integer pair,
appends fBETWEEN followed by the two javascript date generator calls
joined by @ on a datetime pair, and raises QueryTypeError on every mixed
or otherwise-typed pair. -/
theorem c7_between_serialization (s : State) (f : String) (n1 n2 : Int)
    (d1 d2 : DateTime) (a b : Value) (hcf : s.current_field = some f)
    (hf : f ≠ "") (hco : s.c_oper = none)
    (hnii : (a.isInt && b.isInt) = false)
    (hndd : (a.isDt && b.isDt) = false) :
    between s (Value.sc (SVal.i n1)) (Value.sc (SVal.i n2)) =
      (none,
        { s with
            c_oper := some ("between"),
            query := s.query ++
              [f ++ "BETWEEN" ++ toString n1 ++ "@" ++ toString n2] }) ∧
    between s (Value.sc (SVal.dt d1)) (Value.sc (SVal.dt d2)) =
      (none,
        { s with
            c_oper := some ("between"),
            query := s.query ++
              [f ++ "BETWEEN" ++ "javascript:gs.dateGenerate(\"" ++ d1.strftime ++
                "\")@javascript:gs.dateGenerate(\"" ++ d2.strftime ++ "\")"] }) ∧
    between s a b =
      (some (QErr.queryTypeError
        ("Expected `start` and `end` of type `int` or instance of `datetime`, not " ++
          a.pyTypeName ++ " and " ++ b.pyTypeName)), s) := by
  have hft : truthy s.current_field = true := by
    rw [hcf]; exact truthy_some f hf
  have hcot : truthy s.c_oper = false := by
    rw [hco]; rfl
  refine ⟨?_, ?_, ?_⟩
  · show addCondition s ("between") ("BETWEEN")
      (Value.sc (SVal.s (toString n1 ++ "@" ++ toString n2))) [.tStr] = _
    rw [addCondition_success _ _ _ _ _ hft (by rfl) hcot]
    simp [optStr, hcf, SVal.pyStr, Value.pyStr, String.append_assoc]
  · show addCondition s ("between") ("BETWEEN")
      (Value.sc (SVal.s ("javascript:gs.dateGenerate(\"" ++ d1.strftime ++
        "\")@javascript:gs.dateGenerate(\"" ++ d2.strftime ++ "\")"))) [.tStr] = _
    rw [addCondition_success _ _ _ _ _ hft (by rfl) hcot]
    have hfold : ∀ x : String,
        ("BETWEEN" : String) ++ ("javascript:gs.dateGenerate(\"" ++ x) =
          "BETWEENjavascript:gs.dateGenerate(\"" ++ x := by
      intro x
      rw [← String.append_assoc]
      simp
    simp [optStr, hcf, SVal.pyStr, Value.pyStr, String.append_assoc, hfold]
  · cases a with
    | sc sa =>
        cases sa with
        | s x =>
            cases b with
            | sc sb => cases sb <;> rfl
            | ls lb => rfl
        | i m1 =>
            cases b with
            | sc sb =>
                cases sb with
                | s x => rfl
                | i m2 => simp [Value.isInt] at hnii
                | dt e => rfl
            | ls lb => rfl
        | dt e1 =>
            cases b with
            | sc sb =>
                cases sb with
                | s x => rfl
                | i m => rfl
                | dt e2 => simp [Value.isDt] at hndd
            | ls lb => rfl
    | ls la =>
        cases b with
        | sc sb => cases sb <;> rfl
        | ls lb => rfl

/-- C7 witness: the statement at a concrete state, the integer pair 1, 10,
a concrete datetime pair, and the mixed pair 1, text. -/
theorem c7_between_serialization_witness :
    between (field initState ("f")) (Value.sc (SVal.i 1)) (Value.sc (SVal.i 10)) =
      (none,
        { field initState ("f") with
            c_oper := some ("between"),
            query := [("fBETWEEN1@10")] }) ∧
    between (field initState ("f")) (Value.sc (SVal.dt (DateTime.mk 2020 1 2 3 4 5)))
        (Value.sc (SVal.dt (DateTime.mk 2021 11 12 13 14 15))) =
      (none,
        { field initState ("f") with
            c_oper := some ("between"),
            query :=
              [("fBETWEENjavascript:gs.dateGenerate(\"2020-01-02 03:04:05\")@javascript:gs.dateGenerate(\"2021-11-12 13:14:15\")")] }) ∧
    between (field initState ("f")) (Value.sc (SVal.i 1)) (Value.sc (SVal.s ("x"))) =
      (some (QErr.queryTypeError
        ("Expected `start` and `end` of type `int` or instance of `datetime`, not " ++
          (Value.sc (SVal.i 1)).pyTypeName ++ " and " ++
          (Value.sc (SVal.s ("x"))).pyTypeName)), field initState ("f")) := by
  have h := c7_between_serialization (field initState ("f")) ("f") 1 10
    (DateTime.mk 2020 1 2 3 4 5) (DateTime.mk 2021 11 12 13 14 15)
    (Value.sc (SVal.i 1)) (Value.sc (SVal.s ("x"))) rfl (by decide) rfl
    (by rfl) (by rfl)
  refine ⟨?_, ?_, h.2.2⟩
  · simpa using h.1
  · have h2 := h.2.1
    simpa [DateTime.strftime, pad2, pad4] using h2

/-- C8: immediately after any successfully appended condition, a second
condition operation with an operand it accepts, invoked with no
intervening logical operator, raises QueryMultipleExpressions and appends
nothing. -/
theorem c8_second_condition_rejected (s s2 : State) (c1 c2 : COp)
    (h : applyCond s c1 = (none, s2)) (hv : validOperand c2 = true) :
    applyCond s2 c2 =
      (some (QErr.queryMultipleExpressions
        ("Expected logical operator after expression")), s2) := by
  obtain ⟨hf, hcf, hco, t, hq, ht⟩ := applyCond_success_shape _ _ _ h
  refine applyCond_pending_mult _ _ ?_ hco hv
  rw [hcf]
  exact hf

/-- C8 witness: after a=1, a contains condition is rejected with
QueryMultipleExpressions and the query is unchanged. -/
theorem c8_second_condition_rejected_witness :
    applyCond (State.mk [("a=1")] (some ("a")) (some ("equals")) none)
        (COp.contains (Value.sc (SVal.s ("x")))) =
      (some (QErr.queryMultipleExpressions
        ("Expected logical operator after expression")),
        State.mk [("a=1")] (some ("a")) (some ("equals")) none) :=
  c8_second_condition_rejected (field initState ("a"))
    (State.mk [("a=1")] (some ("a")) (some ("equals")) none)
    (COp.equals (Value.sc (SVal.s ("1"))))
    (COp.contains (Value.sc (SVal.s ("x")))) rfl rfl

/-- C9: every operation that raises one of the validation errors leaves
the whole builder state unchanged: the token sequence, the current field,
the pending-condition marker and the pending logical-operator marker are
exactly as before the call (serialization reads the state and never
writes, so only the mutating operations appear here). -/
theorem c9_error_state_unchanged (s s2 : State) (op : Op) (e : QErr)
    (h : step s op = (some e, s2)) : s2 = s := by
  cases op with
  | field f => simp [step] at h
  | cond c => exact applyCond_err_unchanged _ _ _ _ h
  | logAND =>
      simp only [step, AND] at h
      exact addLogicalOperator_unchanged_of_err _ _ _ _ _ h
  | logOR =>
      simp only [step, OR] at h
      exact addLogicalOperator_unchanged_of_err _ _ _ _ _ h
  | logNQ =>
      simp only [step, NQ] at h
      exact addLogicalOperator_unchanged_of_err _ _ _ _ _ h

/-- C9 witness: equals on a fresh builder raises QueryMissingField and the
state after the call is the fresh state itself. -/
theorem c9_error_state_unchanged_witness :
    step initState (Op.cond (COp.equals (Value.sc (SVal.s ("1"))))) =
      (some (QErr.queryMissingField ("Conditions requires a field()")), initState) ∧
    initState = initState :=
  ⟨rfl, c9_error_state_unchanged initState initState
    (Op.cond (COp.equals (Value.sc (SVal.s ("1")))))
    (QErr.queryMissingField ("Conditions requires a field()")) rfl⟩

/-- C10: in every state reachable from a fresh builder by successful
operations, the token sequence does not begin with one of the
logical-operator tokens and never holds two of them adjacently:
every logical-operator token is immediately preceded by a condition
fragment. -/
theorem c10_reachable_goodSeq (s : State) (h : Reachable s) :
    goodSeq s.query = true :=
  (reachable_inv s h).1

/-- C10 witness: a concrete reachable state built by five successful
calls. -/
theorem c10_reachable_goodSeq_witness :
    goodSeq (State.mk [("a=1"), ("^"), ("bLIKEx")] (some ("b"))
      (some ("contains")) (some ("AND"))).query = true := by
  have h0 : Reachable initState := Reachable.init
  have h1 : Reachable (field initState ("a")) :=
    Reachable.next _ _ (Op.field ("a")) h0 rfl
  have h2 : Reachable (State.mk [("a=1")] (some ("a")) (some ("equals")) none) :=
    Reachable.next _ _ (Op.cond (COp.equals (Value.sc (SVal.s ("1"))))) h1 rfl
  have h3 : Reachable (State.mk [("a=1"), ("^")] none none (some ("AND"))) :=
    Reachable.next _ _ Op.logAND h2 rfl
  have h4 : Reachable (State.mk [("a=1"), ("^")] (some ("b")) none (some ("AND"))) :=
    Reachable.next _ _ (Op.field ("b")) h3 rfl
  have h5 : Reachable (State.mk [("a=1"), ("^"), ("bLIKEx")] (some ("b"))
      (some ("contains")) (some ("AND"))) :=
    Reachable.next _ _ (Op.cond (COp.contains (Value.sc (SVal.s ("x"))))) h4 rfl
  exact c10_reachable_goodSeq _ h5

end Pysnow
